import Mathlib

/-
Shallow embedding of the sage-bitrix-sync reconciliation core.

Sources embedded:
  * internal/models (Socio, IsValid)                       -> Socio, Socio.IsValid
  * internal/bitrix client (BitrixSocio, convertSageToBitrix,
    NeedsUpdate, EntityTypeSocios)                          -> BitrixSocio, convertSageToBitrix, NeedsUpdate
  * internal/sync/service.go (SyncResult, synchronizeSocios,
    SyncSocios, completeResult)                             -> SyncResult, buildBitrixMap, syncLoop, SyncSocios, completeResult
  * internal/repository/socio_repository.go (GetAll,
    GetAllExcept)                                           -> GetAll, GetAllExcept

Modelling conventions:
  * Go float64 PorParticipacion is modelled as Rat; strconv.FormatFloat(f, 'f', 2, 64)
    is modelled as correctly-rounded (round half to even) fixed two-decimal rendering,
    which agrees with Go on every value that is exactly representable in binary64
    (in particular on the decimal values exercised by the claims: 12.5 and 0).
  * Remote I/O (CreateSocio, UpdateSocio) is modelled by an environment of oracles
    returning Option String (none = the call succeeded, some cause = the call failed
    with that cause), since the loop only observes success or failure with a cause.
  * Context cancellation (ctx.Done()) is modelled by an oracle ctxDone : Nat -> Bool
    consulted at each cancellation-check site; the argument is the number of checks
    performed so far in the run.  ctx.Err() is modelled by the string ctxErr.
  * time.Now() values are supplied by the environment (tStart, tEnd); StartTime,
    EndTime and the derived Duration are Option-valued so that being populated is
    observable.
-/

namespace SageSync

/-- A socio row from the Sage database (internal/models Socio). -/
structure Socio where
  codigoEmpresa : Int
  porParticipacion : Rat
  administrador : Bool
  cargoAdministrador : String
  dni : String
  razonSocialEmpleado : String
deriving DecidableEq

/-- Socio.IsValid from internal/models: a socio is valid iff its DNI is non-empty. -/
def Socio.IsValid (s : Socio) : Bool :=
  s.dni != ""

/-- A socio in Bitrix24 format (internal/bitrix BitrixSocio). -/
structure BitrixSocio where
  id : Int
  title : String
  entityTypeID : Int
  dni : String
  cargo : String
  administrador : String
  participacion : String
  razonSocialEmpleado : String
deriving DecidableEq

/-- EntityTypeSocios constant of the bitrix client. -/
def EntityTypeSocios : Int := 55

/-- Render n % 100 as exactly two decimal digits. -/
def twoDigits (n : Nat) : String :=
  String.mk [Nat.digitChar (n / 10 % 10), Nat.digitChar (n % 10)]

/-- Model of strconv.FormatFloat(f, 'f', 2, 64): fixed-point rendering with exactly
two fractional digits.  The magnitude is scaled to hundredths and rounded to the
nearest integer, ties to even (the rounding FormatFloat applies), working on the
numerator and denominator directly: f is the floor of the scaled magnitude and
r2 twice the remainder numerator, so comparing r2 with the denominator decides
the half. -/
def formatFloat (q : Rat) : String :=
  let n : Nat := q.num.natAbs * 100
  let d : Nat := q.den
  let f : Nat := n / d
  let r2 : Nat := 2 * (n % d)
  let c : Nat :=
    if r2 > d then f + 1
    else if r2 < d then f
    else if f % 2 = 0 then f else f + 1
  (if q.num < 0 then "-" else "") ++ toString (c / 100) ++ "." ++ twoDigits (c % 100)

/-- convertSageToBitrix from the bitrix client: pure conversion of a Sage socio to
its Bitrix24 representation. -/
def convertSageToBitrix (socio : Socio) : BitrixSocio :=
  let admin := if socio.administrador then "Y" else "N"
  let cargo := if socio.cargoAdministrador = "" then "No especificado" else socio.cargoAdministrador
  let title := if socio.razonSocialEmpleado = "" then socio.dni else socio.razonSocialEmpleado
  let participacion := formatFloat socio.porParticipacion
  { id := 0
    title := title
    entityTypeID := EntityTypeSocios
    dni := socio.dni
    cargo := cargo
    administrador := admin
    participacion := participacion
    razonSocialEmpleado := socio.razonSocialEmpleado }

/-- NeedsUpdate from the bitrix client: compares the remote record against the
conversion of the Sage record on the four mutable fields. -/
def NeedsUpdate (bitrixSocio : BitrixSocio) (sageSocio : Socio) : Bool :=
  let expectedBitrix := convertSageToBitrix sageSocio
  bitrixSocio.cargo != expectedBitrix.cargo ||
  bitrixSocio.administrador != expectedBitrix.administrador ||
  bitrixSocio.participacion != expectedBitrix.participacion ||
  bitrixSocio.razonSocialEmpleado != expectedBitrix.razonSocialEmpleado

/-- The bitrixMap built at the top of synchronizeSocios: a Go map from DNI to
remote record, inserting every record with a non-empty DNI in input order (a Go
map assignment overwrites any earlier binding of the same key). -/
def buildBitrixMap (bitrixSocios : List BitrixSocio) : String → Option BitrixSocio :=
  bitrixSocios.foldl
    (fun m b =>
      if b.dni != "" then (fun dni => if dni = b.dni then some b else m dni) else m)
    (fun _ => none)

/-- Mutable per-loop state of synchronizeSocios: the counters and error list that
the loop writes into the SyncResult, plus the number of cancellation checks
performed so far (the index used to consult the cancellation oracle). -/
structure LoopState where
  created : Nat
  updated : Nat
  skipped : Nat
  errors : List String
  checks : Nat
deriving DecidableEq

/-- Environment of effects observed by the reconciliation loop: outcomes of
CreateSocio and UpdateSocio calls (none = success, some cause = failure), the
cancellation oracle, and the ctx.Err() message. -/
structure Env where
  createRes : Socio → Option String
  updateRes : Int → Socio → Option String
  ctxDone : Nat → Bool
  ctxErr : String

/-- Loop state at the start of a run: all counters zero, no errors, no checks. -/
def initState : LoopState :=
  { created := 0, updated := 0, skipped := 0, errors := [], checks := 0 }

/-- The per-record loop of synchronizeSocios (service.go lines 118-166).  Returns
the final loop state and, when the bottom-of-body cancellation check fires,
the cancellation error.  The cancellation check is reached only by iterations
that did not hit a continue statement (empty-DNI skip, failed update, failed
create all continue directly to the next record). -/
def syncLoop (env : Env) (bitrixMap : String → Option BitrixSocio) :
    List Socio → LoopState → LoopState × Option String
  | [], st => (st, none)
  | sageSocio :: rest, st =>
    if sageSocio.dni = "" then
      syncLoop env bitrixMap rest { st with skipped := st.skipped + 1 }
    else
      match bitrixMap sageSocio.dni with
      | some bitrixSocio =>
        if NeedsUpdate bitrixSocio sageSocio then
          match env.updateRes bitrixSocio.id sageSocio with
          | some cause =>
            syncLoop env bitrixMap rest
              { st with errors := st.errors ++
                  ["Failed to update socio " ++ sageSocio.dni ++ ": " ++ cause] }
          | none =>
            let st1 := { st with updated := st.updated + 1 }
            if env.ctxDone st1.checks then
              ({ st1 with checks := st1.checks + 1 }, some ("sync cancelled: " ++ env.ctxErr))
            else
              syncLoop env bitrixMap rest { st1 with checks := st1.checks + 1 }
        else
          let st1 := { st with skipped := st.skipped + 1 }
          if env.ctxDone st1.checks then
            ({ st1 with checks := st1.checks + 1 }, some ("sync cancelled: " ++ env.ctxErr))
          else
            syncLoop env bitrixMap rest { st1 with checks := st1.checks + 1 }
      | none =>
        match env.createRes sageSocio with
        | some cause =>
          syncLoop env bitrixMap rest
            { st with errors := st.errors ++
                ["Failed to create socio " ++ sageSocio.dni ++ ": " ++ cause] }
        | none =>
          let st1 := { st with created := st.created + 1 }
          if env.ctxDone st1.checks then
            ({ st1 with checks := st1.checks + 1 }, some ("sync cancelled: " ++ env.ctxErr))
          else
            syncLoop env bitrixMap rest { st1 with checks := st1.checks + 1 }

/-- SyncResult from service.go.  StartTime, EndTime and Duration are Option-valued
so that being populated is observable; Duration is the integer difference of the
model time stamps. -/
structure SyncResult where
  clientID : String
  startTime : Option Nat
  endTime : Option Nat
  duration : Option Int
  sociosProcessed : Nat
  sociosCreated : Nat
  sociosUpdated : Nat
  sociosSkipped : Nat
  errors : List String
  success : Bool
deriving DecidableEq

/-- Environment of a whole SyncSocios run: the client id from the config, the two
time.Now() readings, the outcomes of the fatal-failure-prone steps (connect to
Sage, Bitrix24 connection test, GetAll, ListSocios), and the loop environment. -/
structure RunEnv where
  clientID : String
  tStart : Nat
  tEnd : Nat
  connectSage : Option String
  testConnection : Option String
  getAll : Except String (List Socio)
  listSocios : Except String (List BitrixSocio)
  env : Env

/-- completeResult from service.go: marks the run failed, stamps EndTime and
Duration, appends the triggering error message when present, and returns the
report together with the error. -/
def completeResult (tEnd : Nat) (result : SyncResult) (err : Option String) :
    SyncResult × Option String :=
  let result1 := { result with
    success := false
    endTime := some tEnd
    duration := some ((tEnd : Int) - ((result.startTime.getD 0 : Nat) : Int)) }
  match err with
  | some errorMsg => ({ result1 with errors := result1.errors ++ [errorMsg] }, some errorMsg)
  | none => (result1, none)

/-- SyncSocios from service.go: the complete run.  Returns the report and the
terminal error (none on a successful run). -/
def SyncSocios (renv : RunEnv) : SyncResult × Option String :=
  let result : SyncResult :=
    { clientID := renv.clientID
      startTime := some renv.tStart
      endTime := none
      duration := none
      sociosProcessed := 0
      sociosCreated := 0
      sociosUpdated := 0
      sociosSkipped := 0
      errors := []
      success := false }
  match renv.connectSage with
  | some e => completeResult renv.tEnd result (some ("failed to connect to Sage: " ++ e))
  | none =>
    match renv.testConnection with
    | some e => completeResult renv.tEnd result (some ("failed to connect to Bitrix24: " ++ e))
    | none =>
      match renv.getAll with
      | Except.error e =>
        completeResult renv.tEnd result (some ("failed to fetch socios from Sage: " ++ e))
      | Except.ok sageSocios =>
        match renv.listSocios with
        | Except.error e =>
          completeResult renv.tEnd result (some ("failed to fetch socios from Bitrix24: " ++ e))
        | Except.ok bitrixSocios =>
          let result1 := { result with sociosProcessed := sageSocios.length }
          let out := syncLoop renv.env (buildBitrixMap bitrixSocios) sageSocios initState
          let result2 := { result1 with
            sociosCreated := out.1.created
            sociosUpdated := out.1.updated
            sociosSkipped := out.1.skipped
            errors := result1.errors ++ out.1.errors }
          match out.2 with
          | some e => completeResult renv.tEnd result2 (some e)
          | none =>
            ({ result2 with
                success := true
                endTime := some renv.tEnd
                duration := some ((renv.tEnd : Int) - (renv.tStart : Int)) }, none)

/-- One raw row of the Socios table as seen by the repository: whether the DNI
column is SQL NULL, whether rows.Scan succeeds on the row, and the scanned
socio value when it does. -/
structure SageRow where
  dniNull : Bool
  scanOk : Bool
  socio : Socio
deriving DecidableEq

/-- Insertion step of the ORDER BY DNI model. -/
def insertByDNI (r : SageRow) : List SageRow → List SageRow
  | [] => [r]
  | x :: xs => if r.socio.dni ≤ x.socio.dni then r :: x :: xs else x :: insertByDNI r xs

/-- ORDER BY DNI: sort rows by the DNI column. -/
def sortByDNI (l : List SageRow) : List SageRow := l.foldr insertByDNI []

/-- The scan-and-filter loop shared by GetAll and GetAllExcept: scan each row,
skip rows whose scan fails, keep the socios that pass IsValid. -/
def scanRows (rows : List SageRow) : List Socio :=
  rows.foldl
    (fun socios r =>
      if r.scanOk then
        if r.socio.IsValid then socios ++ [r.socio] else socios
      else socios) []

/-- GetAll from socio_repository.go: SELECT rows whose DNI is neither NULL nor
empty, ORDER BY DNI, then scan and keep valid socios. -/
def GetAll (db : List SageRow) : List Socio :=
  scanRows (sortByDNI (db.filter (fun r => !r.dniNull && r.socio.dni != "")))

/-- GetAllExcept from socio_repository.go: with no exclusions it delegates to
GetAll; otherwise the query additionally filters out the excluded DNIs. -/
def GetAllExcept (db : List SageRow) (excludeDNIs : List String) : List Socio :=
  if excludeDNIs.length = 0 then GetAll db
  else
    scanRows (sortByDNI (db.filter (fun r =>
      !r.dniNull && r.socio.dni != "" && !(excludeDNIs.contains r.socio.dni))))

/-- Concrete source record used by the scenario theorems. -/
def sA : Socio :=
  { codigoEmpresa := 1, porParticipacion := mkRat 10 1, administrador := false,
    cargoAdministrador := "", dni := "11111111A", razonSocialEmpleado := "Alice SA" }

/-- Concrete source record used by the scenario theorems. -/
def sB : Socio :=
  { codigoEmpresa := 1, porParticipacion := mkRat 25 2, administrador := true,
    cargoAdministrador := "Gerente", dni := "22222222B", razonSocialEmpleado := "Bob SL" }

/-- Concrete source record used by the scenario theorems. -/
def sC : Socio :=
  { codigoEmpresa := 2, porParticipacion := mkRat 45 1, administrador := false,
    cargoAdministrador := "", dni := "33333333C", razonSocialEmpleado := "" }

/-- Concrete source record with an empty DNI. -/
def sEmptyDNI : Socio :=
  { codigoEmpresa := 3, porParticipacion := mkRat 5 1, administrador := false,
    cargoAdministrador := "", dni := "", razonSocialEmpleado := "Ghost SL" }

/-- First of two remote records sharing a DNI. -/
def bRemoteFirst : BitrixSocio :=
  { id := 1, title := "First SL", entityTypeID := 55, dni := "99999999R",
    cargo := "Gerente", administrador := "Y", participacion := "50.00",
    razonSocialEmpleado := "First SL" }

/-- Second of two remote records sharing a DNI. -/
def bRemoteSecond : BitrixSocio :=
  { bRemoteFirst with id := 2, razonSocialEmpleado := "Second SL" }

/-- Environment in which every remote call succeeds and cancellation never fires. -/
def okEnv : Env :=
  { createRes := fun _ => none
    updateRes := fun _ _ => none
    ctxDone := fun _ => false
    ctxErr := "context canceled" }

/-- Environment in which the create call fails for sB only. -/
def failBEnv : Env :=
  { okEnv with createRes := fun s => if s.dni = sB.dni then some "boom" else none }

/-- Environment in which cancellation is signalled from the start and every
create call fails. -/
def cancelFailEnv : Env :=
  { okEnv with createRes := fun _ => some "connection reset", ctxDone := fun _ => true }

/-- Environment in which cancellation is signalled from the start and every
remote call succeeds. -/
def cancelOkEnv : Env :=
  { okEnv with ctxDone := fun _ => true }

/-- Run environment for the partial-failure scenario: three source records, an
empty remote snapshot, and a create failure for sB. -/
def c2renv : RunEnv :=
  { clientID := "client-1", tStart := 3, tEnd := 10, connectSage := none,
    testConnection := none, getAll := Except.ok [sA, sB, sC],
    listSocios := Except.ok [], env := failBEnv }

/-- Run environment in which the remote list call fails. -/
def c3renv : RunEnv :=
  { clientID := "client-1", tStart := 3, tEnd := 10, connectSage := none,
    testConnection := none, getAll := Except.ok [sA, sB, sC],
    listSocios := Except.error "unexpected status 500", env := okEnv }

/-- Remote record agreeing with the conversion of sB on the four mutable fields
but differing on title and id. -/
def rTitleOnly : BitrixSocio :=
  { convertSageToBitrix sB with title := "Another title", id := 42 }

/-- Concrete database rows for the repository theorems. -/
def dbRows : List SageRow :=
  [ { dniNull := false, scanOk := true, socio := sB },
    { dniNull := false, scanOk := true, socio := sA },
    { dniNull := true, scanOk := true, socio := sC },
    { dniNull := false, scanOk := false, socio := sC },
    { dniNull := false, scanOk := true, socio := sEmptyDNI } ]

/-! Helper lemmas shared by the claim theorems. -/

/-- One insertion step of the bitrixMap fold, evaluated at a non-empty key,
equals searching the one-record list first and falling back to the old map. -/
theorem bitrixMapStep_or (m : String → Option BitrixSocio) (b : BitrixSocio)
    (dni : String) (h : dni ≠ "") :
    (if b.dni != "" then (fun d => if d = b.dni then some b else m d) else m) dni
      = (List.find? (fun x => x.dni == dni) [b]).or (m dni) := by
  by_cases hb : b.dni = dni
  · have h1 : (b.dni != "") = true := by simp [hb, h]
    have h2 : (b.dni == dni) = true := by simp [hb]
    simp [h1, h2, List.find?, hb.symm]
  · have h2 : (b.dni == dni) = false := by simp [hb]
    have h3 : dni ≠ b.dni := fun he => hb he.symm
    by_cases hbe : b.dni = ""
    · have h4 : ("" == dni) = false := beq_eq_false_iff_ne.mpr (fun he => h he.symm)
      simp [hbe, List.find?, h4]
    · have h1 : (b.dni != "") = true := by simp [hbe]
      simp [h1, List.find?, h2, h3]

/-- The bitrixMap fold, evaluated at a non-empty key, returns the last matching
record of the input if any, and otherwise falls back to the initial map. -/
theorem buildBitrixMap_foldl (l : List BitrixSocio) :
    ∀ (m : String → Option BitrixSocio) (dni : String), dni ≠ "" →
      (l.foldl
        (fun m b =>
          if b.dni != "" then (fun d => if d = b.dni then some b else m d) else m) m) dni
        = (l.reverse.find? (fun b => b.dni == dni)).or (m dni) := by
  induction l with
  | nil => intro m dni _; rfl
  | cons b t ih =>
    intro m dni h
    simp only [List.foldl_cons, List.reverse_cons, List.find?_append]
    rw [ih _ dni h, bitrixMapStep_or m b dni h, Option.or_assoc]

/-- buildBitrixMap at a non-empty key returns the last record with that DNI. -/
theorem buildBitrixMap_eq_find_reverse (l : List BitrixSocio) (dni : String)
    (h : dni ≠ "") :
    buildBitrixMap l dni = l.reverse.find? (fun b => b.dni == dni) := by
  have := buildBitrixMap_foldl l (fun _ => none) dni h
  simpa [buildBitrixMap] using this

/-- In a list whose DNIs are pairwise distinct, searching the reversed list for
the DNI of a member finds exactly that member. -/
theorem find_reverse_nodup (ss : List Socio) (s : Socio)
    (hnd : (ss.map Socio.dni).Nodup) (hmem : s ∈ ss) :
    ss.reverse.find? (fun x => x.dni == s.dni) = some s := by
  induction ss with
  | nil => cases hmem
  | cons a t ih =>
    have hnd' : (∀ x ∈ t, ¬x.dni = a.dni) ∧ (t.map Socio.dni).Nodup := by
      simpa using hnd
    simp only [List.reverse_cons, List.find?_append]
    rcases List.mem_cons.mp hmem with rfl | hmem'
    · have hnone : t.reverse.find? (fun x => x.dni == s.dni) = none := by
        rw [List.find?_eq_none]
        intro x hx
        simp only [beq_iff_eq]
        exact hnd'.1 x (List.mem_reverse.mp hx)
      rw [hnone]
      simp [List.find?]
    · rw [ih hnd'.2 hmem']
      rfl

/-- Loop equation: empty list. -/
theorem syncLoop_nil (env : Env) (m : String → Option BitrixSocio) (st : LoopState) :
    syncLoop env m [] st = (st, none) := rfl

/-- Loop equation: a record with an empty DNI is counted skipped and the loop
continues directly (no remote call, no cancellation check). -/
theorem syncLoop_emptyDNI (env : Env) (m : String → Option BitrixSocio)
    (s : Socio) (rest : List Socio) (st : LoopState) (h : s.dni = "") :
    syncLoop env m (s :: rest) st =
      syncLoop env m rest { st with skipped := st.skipped + 1 } := by
  simp [syncLoop, h]

/-- Loop equation: an unmatched record whose create call fails appends one error
and the loop continues directly (no cancellation check). -/
theorem syncLoop_createFail (env : Env) (m : String → Option BitrixSocio)
    (s : Socio) (rest : List Socio) (st : LoopState) (cause : String)
    (h1 : s.dni ≠ "") (h2 : m s.dni = none) (h3 : env.createRes s = some cause) :
    syncLoop env m (s :: rest) st =
      syncLoop env m rest
        { st with errors := st.errors ++
            ["Failed to create socio " ++ s.dni ++ ": " ++ cause] } := by
  simp [syncLoop, h1, h2, h3]

/-- Loop equation: an unmatched record whose create call succeeds, when the
cancellation check observes no cancellation. -/
theorem syncLoop_createOk_cont (env : Env) (m : String → Option BitrixSocio)
    (s : Socio) (rest : List Socio) (st : LoopState)
    (h1 : s.dni ≠ "") (h2 : m s.dni = none) (h3 : env.createRes s = none)
    (h4 : env.ctxDone st.checks = false) :
    syncLoop env m (s :: rest) st =
      syncLoop env m rest { st with created := st.created + 1, checks := st.checks + 1 } := by
  simp [syncLoop, h1, h2, h3, h4]

/-- Loop equation: an unmatched record whose create call succeeds, when the
cancellation check observes cancellation: the loop aborts with the counters
reflecting the completed create. -/
theorem syncLoop_createOk_cancel (env : Env) (m : String → Option BitrixSocio)
    (s : Socio) (rest : List Socio) (st : LoopState)
    (h1 : s.dni ≠ "") (h2 : m s.dni = none) (h3 : env.createRes s = none)
    (h4 : env.ctxDone st.checks = true) :
    syncLoop env m (s :: rest) st =
      ({ st with created := st.created + 1, checks := st.checks + 1 },
       some ("sync cancelled: " ++ env.ctxErr)) := by
  simp [syncLoop, h1, h2, h3, h4]

/-- Loop equation: a matched record needing update whose update call fails
appends one error and the loop continues directly (no cancellation check). -/
theorem syncLoop_updateFail (env : Env) (m : String → Option BitrixSocio)
    (s : Socio) (b : BitrixSocio) (rest : List Socio) (st : LoopState) (cause : String)
    (h1 : s.dni ≠ "") (h2 : m s.dni = some b) (h3 : NeedsUpdate b s = true)
    (h4 : env.updateRes b.id s = some cause) :
    syncLoop env m (s :: rest) st =
      syncLoop env m rest
        { st with errors := st.errors ++
            ["Failed to update socio " ++ s.dni ++ ": " ++ cause] } := by
  simp [syncLoop, h1, h2, h3, h4]

/-- Loop equation: a matched record needing update whose update call succeeds,
when the cancellation check observes no cancellation. -/
theorem syncLoop_updateOk_cont (env : Env) (m : String → Option BitrixSocio)
    (s : Socio) (b : BitrixSocio) (rest : List Socio) (st : LoopState)
    (h1 : s.dni ≠ "") (h2 : m s.dni = some b) (h3 : NeedsUpdate b s = true)
    (h4 : env.updateRes b.id s = none) (h5 : env.ctxDone st.checks = false) :
    syncLoop env m (s :: rest) st =
      syncLoop env m rest { st with updated := st.updated + 1, checks := st.checks + 1 } := by
  simp [syncLoop, h1, h2, h3, h4, h5]

/-- Loop equation: a matched record needing update whose update call succeeds,
when the cancellation check observes cancellation. -/
theorem syncLoop_updateOk_cancel (env : Env) (m : String → Option BitrixSocio)
    (s : Socio) (b : BitrixSocio) (rest : List Socio) (st : LoopState)
    (h1 : s.dni ≠ "") (h2 : m s.dni = some b) (h3 : NeedsUpdate b s = true)
    (h4 : env.updateRes b.id s = none) (h5 : env.ctxDone st.checks = true) :
    syncLoop env m (s :: rest) st =
      ({ st with updated := st.updated + 1, checks := st.checks + 1 },
       some ("sync cancelled: " ++ env.ctxErr)) := by
  simp [syncLoop, h1, h2, h3, h4, h5]

/-- Loop equation: a matched record needing no update is counted skipped, when
the cancellation check observes no cancellation. -/
theorem syncLoop_unchanged_cont (env : Env) (m : String → Option BitrixSocio)
    (s : Socio) (b : BitrixSocio) (rest : List Socio) (st : LoopState)
    (h1 : s.dni ≠ "") (h2 : m s.dni = some b) (h3 : NeedsUpdate b s = false)
    (h4 : env.ctxDone st.checks = false) :
    syncLoop env m (s :: rest) st =
      syncLoop env m rest { st with skipped := st.skipped + 1, checks := st.checks + 1 } := by
  simp [syncLoop, h1, h2, h3, h4]

/-- Loop equation: a matched record needing no update is counted skipped, when
the cancellation check observes cancellation. -/
theorem syncLoop_unchanged_cancel (env : Env) (m : String → Option BitrixSocio)
    (s : Socio) (b : BitrixSocio) (rest : List Socio) (st : LoopState)
    (h1 : s.dni ≠ "") (h2 : m s.dni = some b) (h3 : NeedsUpdate b s = false)
    (h4 : env.ctxDone st.checks = true) :
    syncLoop env m (s :: rest) st =
      ({ st with skipped := st.skipped + 1, checks := st.checks + 1 },
       some ("sync cancelled: " ++ env.ctxErr)) := by
  simp [syncLoop, h1, h2, h3, h4]

/-- If every non-empty-DNI record of the snapshot has a match in the index that
needs no update, the loop performs no create and no update (whether or not
cancellation fires at some point). -/
theorem syncLoop_counters_skip (env : Env) (m : String → Option BitrixSocio)
    (ss : List Socio) :
    ∀ st : LoopState,
      (∀ s ∈ ss, s.dni ≠ "" → ∃ b, m s.dni = some b ∧ NeedsUpdate b s = false) →
      (syncLoop env m ss st).1.created = st.created ∧
      (syncLoop env m ss st).1.updated = st.updated := by
  induction ss with
  | nil => intro st _; exact ⟨rfl, rfl⟩
  | cons s rest ih =>
    intro st h
    have hrest : ∀ x ∈ rest, x.dni ≠ "" → ∃ b, m x.dni = some b ∧ NeedsUpdate b x = false :=
      fun x hx => h x (List.mem_cons_of_mem _ hx)
    by_cases hd : s.dni = ""
    · rw [syncLoop_emptyDNI env m s rest st hd]
      exact ih _ hrest
    · obtain ⟨b, hm, hnu⟩ := h s (List.mem_cons_self _ _) hd
      cases hc : env.ctxDone st.checks with
      | true =>
        rw [syncLoop_unchanged_cancel env m s b rest st hd hm hnu hc]
        exact ⟨rfl, rfl⟩
      | false =>
        rw [syncLoop_unchanged_cont env m s b rest st hd hm hnu hc]
        exact ih _ hrest

/-- Counter conservation of the loop: on a run with no cancellation abort, each
record contributes exactly one unit to created + updated + skipped + new
errors. -/
theorem syncLoop_sum (env : Env) (m : String → Option BitrixSocio)
    (ss : List Socio) :
    ∀ st : LoopState, (syncLoop env m ss st).2 = none →
      (syncLoop env m ss st).1.created + (syncLoop env m ss st).1.updated +
        (syncLoop env m ss st).1.skipped + (syncLoop env m ss st).1.errors.length
        = st.created + st.updated + st.skipped + st.errors.length + ss.length := by
  induction ss with
  | nil => intro st _; simp [syncLoop_nil]
  | cons s rest ih =>
    intro st hnc
    by_cases hd : s.dni = ""
    · rw [syncLoop_emptyDNI env m s rest st hd] at hnc ⊢
      have := ih _ hnc
      simp only [List.length_cons] at this ⊢
      omega
    · cases hm : m s.dni with
      | none =>
        cases hcr : env.createRes s with
        | some cause =>
          rw [syncLoop_createFail env m s rest st cause hd hm hcr] at hnc ⊢
          have := ih _ hnc
          simp only [List.length_append, List.length_cons, List.length_nil] at this ⊢
          omega
        | none =>
          cases hc : env.ctxDone st.checks with
          | true =>
            rw [syncLoop_createOk_cancel env m s rest st hd hm hcr hc] at hnc
            simp at hnc
          | false =>
            rw [syncLoop_createOk_cont env m s rest st hd hm hcr hc] at hnc ⊢
            have := ih _ hnc
            simp only [List.length_cons] at this ⊢
            omega
      | some b =>
        cases hnu : NeedsUpdate b s with
        | true =>
          cases hur : env.updateRes b.id s with
          | some cause =>
            rw [syncLoop_updateFail env m s b rest st cause hd hm hnu hur] at hnc ⊢
            have := ih _ hnc
            simp only [List.length_append, List.length_cons, List.length_nil] at this ⊢
            omega
          | none =>
            cases hc : env.ctxDone st.checks with
            | true =>
              rw [syncLoop_updateOk_cancel env m s b rest st hd hm hnu hur hc] at hnc
              simp at hnc
            | false =>
              rw [syncLoop_updateOk_cont env m s b rest st hd hm hnu hur hc] at hnc ⊢
              have := ih _ hnc
              simp only [List.length_cons] at this ⊢
              omega
        | false =>
          cases hc : env.ctxDone st.checks with
          | true =>
            rw [syncLoop_unchanged_cancel env m s b rest st hd hm hnu hc] at hnc
            simp at hnc
          | false =>
            rw [syncLoop_unchanged_cont env m s b rest st hd hm hnu hc] at hnc ⊢
            have := ih _ hnc
            simp only [List.length_cons] at this ⊢
            omega

/-- Full-run equation: when connection, pre-flight test and both snapshot loads
succeed and the loop is not cancelled, the run returns the success report. -/
theorem SyncSocios_ok (cid : String) (t0 t1 : Nat) (env : Env)
    (ss : List Socio) (bs : List BitrixSocio)
    (h : (syncLoop env (buildBitrixMap bs) ss initState).2 = none) :
    SyncSocios ⟨cid, t0, t1, none, none, Except.ok ss, Except.ok bs, env⟩ =
      ({ clientID := cid, startTime := some t0, endTime := some t1,
         duration := some ((t1 : Int) - (t0 : Int)),
         sociosProcessed := ss.length,
         sociosCreated := (syncLoop env (buildBitrixMap bs) ss initState).1.created,
         sociosUpdated := (syncLoop env (buildBitrixMap bs) ss initState).1.updated,
         sociosSkipped := (syncLoop env (buildBitrixMap bs) ss initState).1.skipped,
         errors := (syncLoop env (buildBitrixMap bs) ss initState).1.errors,
         success := true }, none) := by
  simp only [SyncSocios]
  rw [h]
  simp

/-- Full-run equation: when the loop aborts with a cancellation error, the run
returns the partial report, marked failed, with the cancellation error
appended. -/
theorem SyncSocios_loopErr (cid : String) (t0 t1 : Nat) (env : Env)
    (ss : List Socio) (bs : List BitrixSocio) (e : String)
    (h : (syncLoop env (buildBitrixMap bs) ss initState).2 = some e) :
    SyncSocios ⟨cid, t0, t1, none, none, Except.ok ss, Except.ok bs, env⟩ =
      ({ clientID := cid, startTime := some t0, endTime := some t1,
         duration := some ((t1 : Int) - (t0 : Int)),
         sociosProcessed := ss.length,
         sociosCreated := (syncLoop env (buildBitrixMap bs) ss initState).1.created,
         sociosUpdated := (syncLoop env (buildBitrixMap bs) ss initState).1.updated,
         sociosSkipped := (syncLoop env (buildBitrixMap bs) ss initState).1.skipped,
         errors := (syncLoop env (buildBitrixMap bs) ss initState).1.errors ++ [e],
         success := false }, some e) := by
  simp only [SyncSocios]
  rw [h]
  simp [completeResult]

/-- Full-run equation: when the remote list call fails, the run stops with the
fetch error as its only error and zero counters. -/
theorem SyncSocios_listFail (cid : String) (t0 t1 : Nat) (env : Env)
    (ss : List Socio) (e : String) :
    SyncSocios ⟨cid, t0, t1, none, none, Except.ok ss, Except.error e, env⟩ =
      ({ clientID := cid, startTime := some t0, endTime := some t1,
         duration := some ((t1 : Int) - (t0 : Int)),
         sociosProcessed := 0, sociosCreated := 0, sociosUpdated := 0,
         sociosSkipped := 0,
         errors := ["failed to fetch socios from Bitrix24: " ++ e],
         success := false },
       some ("failed to fetch socios from Bitrix24: " ++ e)) := by
  simp [SyncSocios, completeResult]

/-! Claim theorems. -/

/-- C1 (counterexample): the claim says duplicates in the remote snapshot are
resolved first-wins, but with two records sharing the non-empty DNI 99999999R
the index built by synchronizeSocios maps that DNI to the second record, not
the first: a Go map assignment overwrites the earlier binding. -/
theorem c1_counterexample :
    buildBitrixMap [bRemoteFirst, bRemoteSecond] "99999999R" = some bRemoteSecond ∧
    buildBitrixMap [bRemoteFirst, bRemoteSecond] "99999999R" ≠ some bRemoteFirst := by
  exact ⟨by decide, by decide⟩

/-- C1 (amended): the index built from DNI to remote record resolves duplicates
last-wins: for every remote snapshot and non-empty DNI, the index maps the DNI
to the last record in input order whose DNI equals it (and to nothing when no
record has that DNI). -/
theorem c1_index_last_wins (l : List BitrixSocio) (dni : String) (h : dni ≠ "") :
    buildBitrixMap l dni = l.reverse.find? (fun b => b.dni == dni) :=
  buildBitrixMap_eq_find_reverse l dni h

/-- C1 (amended, witness): the last-wins characterization evaluated on the
two-record snapshot sharing a DNI. -/
theorem c1_index_last_wins_witness :
    buildBitrixMap [bRemoteFirst, bRemoteSecond] "99999999R" =
      [bRemoteFirst, bRemoteSecond].reverse.find? (fun b => b.dni == "99999999R") :=
  c1_index_last_wins [bRemoteFirst, bRemoteSecond] "99999999R" (by decide)

/-- C4: the conversion sets administratorFlag to Y or N from the boolean, falls
back to "No especificado" for an empty role, derives the title from the legal
name with the DNI as fallback, and renders the participation with exactly two
fractional digits (12.5 to "12.50" and 0 to "0.00"). -/
theorem c4_conversion_rules (s : Socio) :
    ((convertSageToBitrix s).administrador = if s.administrador then "Y" else "N") ∧
    ((convertSageToBitrix s).cargo =
      if s.cargoAdministrador = "" then "No especificado" else s.cargoAdministrador) ∧
    ((convertSageToBitrix s).title =
      if s.razonSocialEmpleado = "" then s.dni else s.razonSocialEmpleado) ∧
    (convertSageToBitrix { s with porParticipacion := mkRat 25 2 }).participacion = "12.50" ∧
    (convertSageToBitrix { s with porParticipacion := mkRat 0 1 }).participacion = "0.00" := by
  refine ⟨rfl, rfl, rfl, ?_, ?_⟩
  · show formatFloat (mkRat 25 2) = "12.50"
    decide
  · show formatFloat (mkRat 0 1) = "0.00"
    decide

/-- C4 (witness): the conversion rules evaluated at a concrete record. -/
theorem c4_conversion_rules_witness :
    ((convertSageToBitrix sA).administrador = if sA.administrador then "Y" else "N") ∧
    ((convertSageToBitrix sA).cargo =
      if sA.cargoAdministrador = "" then "No especificado" else sA.cargoAdministrador) ∧
    ((convertSageToBitrix sA).title =
      if sA.razonSocialEmpleado = "" then sA.dni else sA.razonSocialEmpleado) ∧
    (convertSageToBitrix { sA with porParticipacion := mkRat 25 2 }).participacion = "12.50" ∧
    (convertSageToBitrix { sA with porParticipacion := mkRat 0 1 }).participacion = "0.00" :=
  c4_conversion_rules sA

/-- C5: NeedsUpdate returns true exactly when the conversion of the source
record differs from the remote record on one of the four mutable fields, is
insensitive to the remote record's title and id, and returns false whenever the
four mutable fields agree. -/
theorem c5_needsUpdate_iff (r : BitrixSocio) (s : Socio) :
    (NeedsUpdate r s = true ↔
      (r.cargo ≠ (convertSageToBitrix s).cargo ∨
       r.administrador ≠ (convertSageToBitrix s).administrador ∨
       r.participacion ≠ (convertSageToBitrix s).participacion ∨
       r.razonSocialEmpleado ≠ (convertSageToBitrix s).razonSocialEmpleado)) ∧
    (∀ (t : String) (i : Int), NeedsUpdate { r with title := t, id := i } s = NeedsUpdate r s) ∧
    (r.cargo = (convertSageToBitrix s).cargo →
     r.administrador = (convertSageToBitrix s).administrador →
     r.participacion = (convertSageToBitrix s).participacion →
     r.razonSocialEmpleado = (convertSageToBitrix s).razonSocialEmpleado →
     NeedsUpdate r s = false) := by
  refine ⟨?_, ?_, ?_⟩
  · simp only [NeedsUpdate, Bool.or_eq_true, bne_iff_ne, ne_eq]
    tauto
  · intro t i; rfl
  · intro h1 h2 h3 h4
    simp [NeedsUpdate, h1, h2, h3, h4]

/-- C5 (witness): a remote record differing from the conversion only on title
and id does not need an update. -/
theorem c5_needsUpdate_iff_witness : NeedsUpdate rTitleOnly sB = false :=
  (c5_needsUpdate_iff rTitleOnly sB).2.2 rfl rfl rfl rfl

/-- C6: the conversion of a source record never needs an update against itself,
so when every non-empty-DNI record has a matching remote copy that needs no
update the loop creates and updates nothing, and in particular a second run
over the snapshot of mapped copies (with pairwise distinct DNIs) yields
createdCount = 0 and updatedCount = 0. -/
theorem c6_roundtrip_skip :
    (∀ s : Socio, NeedsUpdate (convertSageToBitrix s) s = false) ∧
    (∀ (env : Env) (m : String → Option BitrixSocio) (ss : List Socio) (st : LoopState),
       (∀ s ∈ ss, s.dni ≠ "" → ∃ b, m s.dni = some b ∧ NeedsUpdate b s = false) →
       (syncLoop env m ss st).1.created = st.created ∧
       (syncLoop env m ss st).1.updated = st.updated) ∧
    (∀ (env : Env) (ss : List Socio),
       (ss.map Socio.dni).Nodup →
       (syncLoop env (buildBitrixMap (ss.map convertSageToBitrix)) ss initState).1.created = 0 ∧
       (syncLoop env (buildBitrixMap (ss.map convertSageToBitrix)) ss initState).1.updated = 0) := by
  have hself : ∀ s : Socio, NeedsUpdate (convertSageToBitrix s) s = false := by
    intro s; simp [NeedsUpdate]
  refine ⟨hself, fun env m ss st h => syncLoop_counters_skip env m ss st h, ?_⟩
  intro env ss hnd
  have h : ∀ s ∈ ss, s.dni ≠ "" →
      ∃ b, buildBitrixMap (ss.map convertSageToBitrix) s.dni = some b ∧
        NeedsUpdate b s = false := by
    intro s hs hdni
    refine ⟨convertSageToBitrix s, ?_, hself s⟩
    rw [buildBitrixMap_eq_find_reverse _ _ hdni, ← List.map_reverse]
    rw [List.find?_map]
    have hcomp : ((fun b : BitrixSocio => b.dni == s.dni) ∘ convertSageToBitrix)
        = (fun x : Socio => x.dni == s.dni) := rfl
    rw [hcomp, find_reverse_nodup ss s hnd hs]
    rfl
  exact syncLoop_counters_skip env _ ss initState h

/-- C6 (witness): the second-run conclusion evaluated on a concrete two-record
snapshot. -/
theorem c6_roundtrip_skip_witness :
    (syncLoop okEnv (buildBitrixMap ([sA, sB].map convertSageToBitrix))
        [sA, sB] initState).1.created = 0 ∧
    (syncLoop okEnv (buildBitrixMap ([sA, sB].map convertSageToBitrix))
        [sA, sB] initState).1.updated = 0 :=
  c6_roundtrip_skip.2.2 okEnv [sA, sB] (by decide)

/-- C8: a source record with an empty DNI is counted skipped and the loop moves
on directly; the resulting state does not consult the create or update oracle
for that record (the equation holds for every environment uniformly) and no
cancellation check is reached for it. -/
theorem c8_empty_dni_skipped (env : Env) (m : String → Option BitrixSocio)
    (s : Socio) (rest : List Socio) (st : LoopState) (h : s.dni = "") :
    syncLoop env m (s :: rest) st =
      syncLoop env m rest { st with skipped := st.skipped + 1 } :=
  syncLoop_emptyDNI env m s rest st h

/-- C8 (witness): the empty-DNI skip evaluated on a concrete record. -/
theorem c8_empty_dni_skipped_witness :
    syncLoop okEnv (buildBitrixMap []) [sEmptyDNI] initState =
      syncLoop okEnv (buildBitrixMap []) [] { initState with skipped := initState.skipped + 1 } :=
  c8_empty_dni_skipped okEnv (buildBitrixMap []) sEmptyDNI [] initState rfl

/-- C9: GetAllExcept with an empty exclusion set returns exactly what GetAll
returns, for every database. -/
theorem c9_exclude_empty_is_getAll (db : List SageRow) :
    GetAllExcept db [] = GetAll db := rfl

/-- C9 (witness): the identity evaluated on a concrete database. -/
theorem c9_exclude_empty_is_getAll_witness :
    GetAllExcept dbRows [] = GetAll dbRows :=
  c9_exclude_empty_is_getAll dbRows

/-- C2: a failed create or update for one record appends exactly one error
message carrying the record's DNI and the cause and the loop continues with the
next record; a run whose loop finishes without a cancellation abort reports
Success = true with the loop's errors; and in the concrete partial-failure
scenario (three source records, empty remote snapshot, create failing for the
second) the report shows SociosProcessed = 3, SociosCreated = 2, one error and
Success = true. -/
theorem c2_record_failures_not_fatal :
    (∀ (env : Env) (m : String → Option BitrixSocio) (s : Socio) (rest : List Socio)
        (st : LoopState) (cause : String),
       s.dni ≠ "" → m s.dni = none → env.createRes s = some cause →
       syncLoop env m (s :: rest) st =
         syncLoop env m rest
           { st with errors := st.errors ++
               ["Failed to create socio " ++ s.dni ++ ": " ++ cause] }) ∧
    (∀ (env : Env) (m : String → Option BitrixSocio) (s : Socio) (b : BitrixSocio)
        (rest : List Socio) (st : LoopState) (cause : String),
       s.dni ≠ "" → m s.dni = some b → NeedsUpdate b s = true →
       env.updateRes b.id s = some cause →
       syncLoop env m (s :: rest) st =
         syncLoop env m rest
           { st with errors := st.errors ++
               ["Failed to update socio " ++ s.dni ++ ": " ++ cause] }) ∧
    (∀ (cid : String) (t0 t1 : Nat) (env : Env) (ss : List Socio) (bs : List BitrixSocio),
       (syncLoop env (buildBitrixMap bs) ss initState).2 = none →
       (SyncSocios ⟨cid, t0, t1, none, none, Except.ok ss, Except.ok bs, env⟩).1.success
           = true ∧
       (SyncSocios ⟨cid, t0, t1, none, none, Except.ok ss, Except.ok bs,
           env⟩).1.sociosProcessed = ss.length ∧
       (SyncSocios ⟨cid, t0, t1, none, none, Except.ok ss, Except.ok bs, env⟩).1.errors
           = (syncLoop env (buildBitrixMap bs) ss initState).1.errors) ∧
    ((SyncSocios c2renv).1 =
      { clientID := "client-1", startTime := some 3, endTime := some 10,
        duration := some 7, sociosProcessed := 3, sociosCreated := 2,
        sociosUpdated := 0, sociosSkipped := 0,
        errors := ["Failed to create socio 22222222B: boom"], success := true }) := by
  refine ⟨syncLoop_createFail, syncLoop_updateFail, ?_, ?_⟩
  · intro cid t0 t1 env ss bs h
    rw [SyncSocios_ok cid t0 t1 env ss bs h]
    exact ⟨rfl, rfl, rfl⟩
  · decide

/-- C2 (witness): the success-flag conclusion instantiated on the concrete
partial-failure run. -/
theorem c2_record_failures_not_fatal_witness :
    (SyncSocios c2renv).1.success = true ∧
    (SyncSocios c2renv).1.sociosProcessed = [sA, sB, sC].length ∧
    (SyncSocios c2renv).1.errors =
      (syncLoop failBEnv (buildBitrixMap []) [sA, sB, sC] initState).1.errors :=
  c2_record_failures_not_fatal.2.2.1 "client-1" 3 10 failBEnv [sA, sB, sC] [] (by decide)

/-- C3: when the remote list call fails (all earlier steps succeeding), the run
stops before processing any record: Success = false, SociosProcessed = 0, all
counters zero, exactly one error describing the fetch failure, and StartTime,
EndTime and Duration populated. -/
theorem c3_fatal_list_failure (cid : String) (t0 t1 : Nat) (env : Env)
    (ss : List Socio) (e : String) :
    (SyncSocios ⟨cid, t0, t1, none, none, Except.ok ss, Except.error e, env⟩).1.success
        = false ∧
    (SyncSocios ⟨cid, t0, t1, none, none, Except.ok ss, Except.error e,
        env⟩).1.sociosProcessed = 0 ∧
    (SyncSocios ⟨cid, t0, t1, none, none, Except.ok ss, Except.error e,
        env⟩).1.sociosCreated = 0 ∧
    (SyncSocios ⟨cid, t0, t1, none, none, Except.ok ss, Except.error e,
        env⟩).1.sociosUpdated = 0 ∧
    (SyncSocios ⟨cid, t0, t1, none, none, Except.ok ss, Except.error e,
        env⟩).1.sociosSkipped = 0 ∧
    (SyncSocios ⟨cid, t0, t1, none, none, Except.ok ss, Except.error e, env⟩).1.errors
        = ["failed to fetch socios from Bitrix24: " ++ e] ∧
    (SyncSocios ⟨cid, t0, t1, none, none, Except.ok ss, Except.error e, env⟩).1.startTime
        = some t0 ∧
    (SyncSocios ⟨cid, t0, t1, none, none, Except.ok ss, Except.error e, env⟩).1.endTime
        = some t1 ∧
    (SyncSocios ⟨cid, t0, t1, none, none, Except.ok ss, Except.error e,
        env⟩).1.duration.isSome = true := by
  rw [SyncSocios_listFail cid t0 t1 env ss e]
  exact ⟨rfl, rfl, rfl, rfl, rfl, rfl, rfl, rfl, rfl⟩

/-- C3 (witness): the fatal list failure evaluated on a concrete run. -/
theorem c3_fatal_list_failure_witness :
    (SyncSocios c3renv).1.success = false ∧
    (SyncSocios c3renv).1.errors
      = ["failed to fetch socios from Bitrix24: " ++ "unexpected status 500"] :=
  ⟨(c3_fatal_list_failure "client-1" 3 10 okEnv [sA, sB, sC] "unexpected status 500").1,
   (c3_fatal_list_failure "client-1" 3 10 okEnv [sA, sB, sC]
      "unexpected status 500").2.2.2.2.2.1⟩

/-- C7 (counterexample): cancellation is signalled from the very start (every
check would observe it), the remote snapshot is empty and both create calls
fail; the loop still processes both records (two errors are appended) and ends
with no cancellation error at all, because the per-record error paths continue
without reaching the cancellation check.  Under the claim the loop would have
aborted between the two records with a cancellation error. -/
theorem c7_counterexample :
    cancelFailEnv.ctxDone 0 = true ∧
    syncLoop cancelFailEnv (buildBitrixMap []) [sA, sB] initState =
      ({ created := 0, updated := 0, skipped := 0,
         errors := ["Failed to create socio 11111111A: connection reset",
                    "Failed to create socio 22222222B: connection reset"],
         checks := 0 }, none) :=
  ⟨rfl, by decide⟩

/-- C7 (amended): the loop reaches its cancellation check only after an
iteration that completed a successful create, a successful update or an
unchanged skip; on those paths an observed cancellation aborts the loop
immediately with the distinguishable error "sync cancelled: ...", leaving the
counters reflecting the work already completed.  Iterations ending in a
per-record error or an empty-DNI skip continue to the next record without a
check even when cancellation is already signalled.  When the loop aborts this
way the run reports Success = false, surfaces the cancellation error, and keeps
the partial counters. -/
theorem c7_cancellation_amended :
    (∀ (env : Env) (m : String → Option BitrixSocio) (s : Socio) (rest : List Socio)
        (st : LoopState),
       s.dni ≠ "" → m s.dni = none → env.createRes s = none →
       env.ctxDone st.checks = true →
       syncLoop env m (s :: rest) st =
         ({ st with created := st.created + 1, checks := st.checks + 1 },
          some ("sync cancelled: " ++ env.ctxErr))) ∧
    (∀ (env : Env) (m : String → Option BitrixSocio) (s : Socio) (b : BitrixSocio)
        (rest : List Socio) (st : LoopState),
       s.dni ≠ "" → m s.dni = some b → NeedsUpdate b s = true →
       env.updateRes b.id s = none → env.ctxDone st.checks = true →
       syncLoop env m (s :: rest) st =
         ({ st with updated := st.updated + 1, checks := st.checks + 1 },
          some ("sync cancelled: " ++ env.ctxErr))) ∧
    (∀ (env : Env) (m : String → Option BitrixSocio) (s : Socio) (b : BitrixSocio)
        (rest : List Socio) (st : LoopState),
       s.dni ≠ "" → m s.dni = some b → NeedsUpdate b s = false →
       env.ctxDone st.checks = true →
       syncLoop env m (s :: rest) st =
         ({ st with skipped := st.skipped + 1, checks := st.checks + 1 },
          some ("sync cancelled: " ++ env.ctxErr))) ∧
    (∀ (env : Env) (m : String → Option BitrixSocio) (s : Socio) (rest : List Socio)
        (st : LoopState) (cause : String),
       s.dni ≠ "" → m s.dni = none → env.createRes s = some cause →
       env.ctxDone st.checks = true →
       syncLoop env m (s :: rest) st =
         syncLoop env m rest
           { st with errors := st.errors ++
               ["Failed to create socio " ++ s.dni ++ ": " ++ cause] }) ∧
    (∀ (env : Env) (m : String → Option BitrixSocio) (s : Socio) (rest : List Socio)
        (st : LoopState),
       s.dni = "" → env.ctxDone st.checks = true →
       syncLoop env m (s :: rest) st =
         syncLoop env m rest { st with skipped := st.skipped + 1 }) ∧
    (∀ (cid : String) (t0 t1 : Nat) (env : Env) (ss : List Socio) (bs : List BitrixSocio)
        (e : String),
       (syncLoop env (buildBitrixMap bs) ss initState).2 = some e →
       (SyncSocios ⟨cid, t0, t1, none, none, Except.ok ss, Except.ok bs, env⟩).1.success
           = false ∧
       (SyncSocios ⟨cid, t0, t1, none, none, Except.ok ss, Except.ok bs, env⟩).2
           = some e ∧
       (SyncSocios ⟨cid, t0, t1, none, none, Except.ok ss, Except.ok bs,
           env⟩).1.sociosCreated
           = (syncLoop env (buildBitrixMap bs) ss initState).1.created ∧
       (SyncSocios ⟨cid, t0, t1, none, none, Except.ok ss, Except.ok bs,
           env⟩).1.sociosUpdated
           = (syncLoop env (buildBitrixMap bs) ss initState).1.updated ∧
       (SyncSocios ⟨cid, t0, t1, none, none, Except.ok ss, Except.ok bs,
           env⟩).1.sociosSkipped
           = (syncLoop env (buildBitrixMap bs) ss initState).1.skipped) := by
  refine ⟨syncLoop_createOk_cancel, syncLoop_updateOk_cancel, syncLoop_unchanged_cancel,
    fun env m s rest st cause h1 h2 h3 _ => syncLoop_createFail env m s rest st cause h1 h2 h3,
    fun env m s rest st h _ => syncLoop_emptyDNI env m s rest st h, ?_⟩
  intro cid t0 t1 env ss bs e h
  rw [SyncSocios_loopErr cid t0 t1 env ss bs e h]
  exact ⟨rfl, rfl, rfl, rfl, rfl⟩

/-- C7 (amended, witness): the abort-after-successful-create path evaluated on a
concrete run in which cancellation is signalled from the start. -/
theorem c7_cancellation_amended_witness :
    syncLoop cancelOkEnv (buildBitrixMap []) (sA :: [sB]) initState =
      ({ initState with created := initState.created + 1, checks := initState.checks + 1 },
       some ("sync cancelled: " ++ cancelOkEnv.ctxErr)) :=
  c7_cancellation_amended.1 cancelOkEnv (buildBitrixMap []) sA [sB] initState
    (by decide) rfl rfl rfl

/-- C10: whenever a run returns no terminal error (it reached its natural end),
the report satisfies SociosCreated + SociosUpdated + SociosSkipped + number of
error messages = SociosProcessed. -/
theorem c10_counter_conservation (renv : RunEnv)
    (h : (SyncSocios renv).2 = none) :
    (SyncSocios renv).1.sociosCreated + (SyncSocios renv).1.sociosUpdated +
      (SyncSocios renv).1.sociosSkipped + (SyncSocios renv).1.errors.length
      = (SyncSocios renv).1.sociosProcessed := by
  obtain ⟨cid, t0, t1, cs, tc, ga, ls, env⟩ := renv
  rcases cs with _ | e1
  · rcases tc with _ | e2
    · rcases ga with e3 | ss
      · simp [SyncSocios, completeResult] at h
      · rcases ls with e4 | bs
        · simp [SyncSocios, completeResult] at h
        · rcases hL : (syncLoop env (buildBitrixMap bs) ss initState).2 with _ | e5
          · rw [SyncSocios_ok cid t0 t1 env ss bs hL]
            have hsum := syncLoop_sum env (buildBitrixMap bs) ss initState hL
            simpa [initState] using hsum
          · rw [SyncSocios_loopErr cid t0 t1 env ss bs e5 hL] at h
            simp at h
    · simp [SyncSocios, completeResult] at h
  · simp [SyncSocios, completeResult] at h

/-- C10 (witness): counter conservation evaluated on the concrete
partial-failure run. -/
theorem c10_counter_conservation_witness :
    (SyncSocios c2renv).1.sociosCreated + (SyncSocios c2renv).1.sociosUpdated +
      (SyncSocios c2renv).1.sociosSkipped + (SyncSocios c2renv).1.errors.length
      = (SyncSocios c2renv).1.sociosProcessed :=
  c10_counter_conservation c2renv (by decide)

end SageSync
